import Mathlib

/-!
# Verification of the grocery-inventory dashboard core (`src/grocery_inv.py`)

Shallow embedding of the data-cleaning / KPI pipeline of the dashboard:
`load_data` (ingestion & normalization) and `calculate_kpis` (aggregation),
plus the tabular projections `top_products` and `expiring_soon_data`.

Modelling conventions:
* pandas float values that may be `NaN` are modelled as `Option ℚ`
  (`none` = `NaN`/`NaT`); pandas `.sum()` skips `NaN` (`osum`), pandas
  `.mean()` skips `NaN` and returns `NaN` on an all-`NaN` column (`omean`).
* A raw CSV cell that is empty/`NaN` is `none`.  String-typed cells are
  `Option String`; columns that pandas reads as numeric are `Option ℚ`.
* `pd.to_numeric(..., errors='coerce')` is modelled by `parseDecimal`
  (optional sign, digits, optional fractional part; anything else — e.g. a
  thousands separator `,` or `"abc"` — coerces to `none`).  `astype(str)`
  of a `NaN` cell gives `"nan"`, which `to_numeric` again coerces to `NaN`,
  so a `none` cell stays `none` through the string-cleaning steps.
* `pd.to_datetime(..., errors='coerce')` is modelled by `parseDate` on
  ISO `YYYY-MM-DD` strings, converted to a day number with the standard
  civil-calendar algorithm; unparsable strings give `none` (`NaT`).
* A pandas `DataFrame` read from CSV is a `RawTable`: the list of header
  names plus one `RawRow` per line.  Accessing a column that is not in the
  header raises `KeyError`, modelled as `Except.error`.
* pandas sorts (`groupby` key order, `nlargest(10, keep='first')`,
  `sort_values`) are modelled with the stable `List.insertionSort`.
-/

namespace GroceryInv

/-! ## String cleaning primitives -/

/-- Whitespace test used by `str.strip`. -/
def isSpaceChar (c : Char) : Bool :=
  c = ' ' || c = '\t' || c = '\n' || c = '\r'

/-- Model of pandas `.str.strip()`: drop leading and trailing whitespace. -/
def stripStr (s : String) : String :=
  String.mk (((s.toList.dropWhile isSpaceChar).reverse.dropWhile isSpaceChar).reverse)

/-- Model of `.str.replace(c, '', regex=False)`: remove every occurrence of
the single character `c`. -/
def stripChar (c : Char) (s : String) : String :=
  String.mk (s.toList.filter (fun x => x ≠ c))

/-- Numeric value of a list of decimal digit characters. -/
def digitsToNat (l : List Char) : Nat :=
  l.foldl (fun a c => a * 10 + (c.toNat - 48)) 0

/-- Model of `pd.to_numeric(s, errors='coerce')` on a cleaned string:
`[+|-] digits [. digits]` with at least one digit parses to a rational,
everything else (including `","` thousands separators) coerces to `none`. -/
def parseDecimal (s : String) : Option ℚ :=
  let p : ℚ × List Char :=
    match s.toList with
    | '-' :: rest => (-1, rest)
    | '+' :: rest => (1, rest)
    | cs => (1, cs)
  let ip := p.2.takeWhile Char.isDigit
  let rest := p.2.dropWhile Char.isDigit
  match rest with
  | [] => if ip.isEmpty then none else some (p.1 * (digitsToNat ip : ℚ))
  | '.' :: fr =>
    let fp := fr.takeWhile Char.isDigit
    let rest2 := fr.dropWhile Char.isDigit
    if rest2.isEmpty && !(ip.isEmpty && fp.isEmpty) then
      some (p.1 * ((digitsToNat ip : ℚ) + (digitsToNat fp : ℚ) / ((10 ^ fp.length : Nat) : ℚ)))
    else none
  | _ => none

/-! ## Date parsing -/

/-- Split a character list on a separator character. -/
def splitOnChar (c : Char) : List Char → List (List Char)
  | [] => [[]]
  | x :: xs =>
    let r := splitOnChar c xs
    if x = c then [] :: r
    else
      match r with
      | [] => [[x]]
      | h :: t => (x :: h) :: t

/-- Day number of a civil date (days since 1970-01-01), the standard
`days_from_civil` algorithm; all intermediate divisions are on `Nat`. -/
def daysFromCivil (y m d : Nat) : Int :=
  let y' := if m ≤ 2 then y - 1 else y
  let era := y' / 400
  let yoe := y' - era * 400
  let mp := (m + 9) % 12
  let doy := (153 * mp + 2) / 5 + d - 1
  let doe := yoe * 365 + yoe / 4 - yoe / 100 + doy
  (era * 146097 + doe : Int) - 719468

/-- Model of `pd.to_datetime(s, errors='coerce')` restricted to ISO
`YYYY-MM-DD` strings, returning the civil day number; any string not of
that shape coerces to `none` (`NaT`). -/
def parseDate (s : String) : Option Int :=
  match splitOnChar '-' s.toList with
  | [ys, ms, ds] =>
    if !ys.isEmpty && !ms.isEmpty && !ds.isEmpty && (ys ++ ms ++ ds).all Char.isDigit then
      let m := digitsToNat ms
      let d := digitsToNat ds
      if 1 ≤ m && m ≤ 12 && 1 ≤ d && d ≤ 31 then
        some (daysFromCivil (digitsToNat ys) m d)
      else none
    else none
  | _ => none

/-! ## NaN-aware arithmetic (pandas semantics) -/

/-- Product of two possibly-`NaN` values: `NaN` propagates. -/
def omul (a b : Option ℚ) : Option ℚ :=
  match a, b with
  | some x, some y => some (x * y)
  | _, _ => none

/-- pandas `Series.sum()`: `NaN` entries are skipped (contribute `0`);
an empty or all-`NaN` series sums to `0`. -/
def osum (l : List (Option ℚ)) : ℚ :=
  (l.map (fun x => x.getD 0)).sum

/-- pandas `Series.mean()`: the mean of the non-`NaN` entries, and `NaN`
(`none`) when every entry is `NaN`. -/
def omean (l : List (Option ℚ)) : Option ℚ :=
  if (l.filterMap id).isEmpty then none
  else some ((l.filterMap id).sum / ((l.filterMap id).length : ℚ))

/-! ## Data model -/

/-- One line of the source CSV, cell values keyed by the interface columns.
A cell of a column that is absent from the table's header is meaningless
and never read (column presence is recorded in `RawTable.cols`). -/
structure RawRow where
  productName : String
  catagory : Option String
  supplierID : String
  supplierName : String
  stockQuantity : Option ℚ
  reorderLevel : Option ℚ
  reorderQuantity : Option ℚ
  salesVolume : Option ℚ
  unitPrice : Option String
  percentage : Option String
  turnoverRate : Option ℚ
  status : String
  dateReceived : Option String
  lastOrderDate : Option String
  expirationDate : Option String
deriving DecidableEq

/-- A raw pandas `DataFrame` as read from CSV: header names plus rows. -/
structure RawTable where
  cols : List String
  rows : List RawRow
deriving DecidableEq

/-- A normalized record as produced by `load_data`: original fields plus
the derived columns. -/
structure Row where
  productName : String
  catagory : String
  supplierID : String
  supplierName : String
  stockQuantity : Option ℚ
  reorderLevel : Option ℚ
  reorderQuantity : Option ℚ
  salesVolume : Option ℚ
  unitPrice : Option ℚ
  productMargin : Option ℚ
  turnoverRate : Option ℚ
  status : String
  inventoryValue : Option ℚ
  totalRevenue : Option ℚ
  daysToExpire : Option Int
  avgDailySales : Option ℚ
deriving DecidableEq

/-! ## Ingestion & normalization (`load_data`, lines 15-61) -/

/-- `df['Unit_Price'].astype(str).str.replace('$','').str.strip()` then
`pd.to_numeric(..., errors='coerce')` (lines 27-28). -/
def parseUnitPriceCell (c : Option String) : Option ℚ :=
  match c with
  | none => none
  | some s => parseDecimal (stripStr (stripChar '$' s))

/-- `df['percentage'].astype(str).str.replace('%','').str.strip()` then
`pd.to_numeric(..., errors='coerce') / 100` (lines 33-34). -/
def parseMarginCell (c : Option String) : Option ℚ :=
  match c with
  | none => none
  | some s => (parseDecimal (stripStr (stripChar '%' s))).map (fun q => q / 100)

/-- The parsed `Expiration_Date` cell (line 47): `NaN` cell or unparsable
string gives `NaT`. -/
def expDayOfCell (c : Option String) : Option Int :=
  c.bind parseDate

/-- Per-row normalization body of `load_data` (lines 27-59): price and
margin cleaning, derived columns, date parsing, `Days_to_Expire`,
`Catagory` fill, and the `Avg_Daily_Sales` proxy with its `inf`/`0 → 1`
replacement (in `ℚ` a division by the constant 30 can only be `0` when the
numerator is `0`). -/
def mkRow (hasPct : Bool) (refDay : Int) (r : RawRow) : Row :=
  let up := parseUnitPriceCell r.unitPrice
  let margin := if hasPct then parseMarginCell r.percentage else some 0
  let exp := expDayOfCell r.expirationDate
  { productName := r.productName
    catagory := r.catagory.getD "Unknown"
    supplierID := r.supplierID
    supplierName := r.supplierName
    stockQuantity := r.stockQuantity
    reorderLevel := r.reorderLevel
    reorderQuantity := r.reorderQuantity
    salesVolume := r.salesVolume
    unitPrice := up
    productMargin := margin
    turnoverRate := r.turnoverRate
    status := r.status
    inventoryValue := omul r.stockQuantity up
    totalRevenue := omul r.salesVolume up
    daysToExpire := exp.map (fun e => e - refDay)
    avgDailySales :=
      match r.salesVolume with
      | none => none
      | some v => if v / 30 = 0 then some 1 else some (v / 30) }

/-- Column lookup after `df.columns.str.strip()` (line 24). -/
def hasCol (t : RawTable) (c : String) : Bool :=
  (t.cols.map stripStr).contains c

/-- The `st.error` message surfaced when the `percentage` column is absent
(line 36). -/
def pctWarning : String :=
  "Financial column 'percentage' (intended for Margin) not found. Setting Margin to 0.0."

/-- The `st.error` message surfaced on `FileNotFoundError` (line 20). -/
def fileErrorMsg : String :=
  "Error: File not found."

/-- `load_data(file_path, current_date)` (lines 15-61).  The input is
`none` when the source file cannot be read (`FileNotFoundError`), in which
case an empty table is returned together with the error message.
Reading a column that is not in the (stripped) header raises `KeyError`
(`Except.error`); the columns read unconditionally are, in program order,
`Unit_Price` (line 27), `Stock_Quantity` (line 40), `Sales_Volume`
(line 41), the three date columns (lines 44-47) and `Catagory` (line 54).
Only `percentage` is guarded by a presence check (line 31); when it is
absent, `Product_Margin` is set to the number `0.0` for every row and a
warning is surfaced (lines 36-37). -/
def load_data (file : Option RawTable) (refDay : Int) :
    Except String (List Row × List String) :=
  match file with
  | none => .ok ([], [fileErrorMsg])
  | some t =>
    if hasCol t "Unit_Price" then
      if hasCol t "Stock_Quantity" then
        if hasCol t "Sales_Volume" then
          if hasCol t "Date_Received" then
            if hasCol t "Last_Order_Date" then
              if hasCol t "Expiration_Date" then
                if hasCol t "Catagory" then
                  let hasPct := hasCol t "percentage"
                  .ok (t.rows.map (mkRow hasPct refDay),
                       if hasPct then [] else [pctWarning])
                else .error "KeyError: 'Catagory'"
              else .error "KeyError: 'Expiration_Date'"
            else .error "KeyError: 'Last_Order_Date'"
          else .error "KeyError: 'Sales_Volume'"
        else .error "KeyError: 'Stock_Quantity'"
      else .error "KeyError: 'Unit_Price'"
    else .error "KeyError: 'Unit_Price'"

/-! ## Aggregation engine (`calculate_kpis`, lines 67-102) -/

/-- `df['Inventory_Value'].sum()` (line 74). -/
def total_inventory_value (df : List Row) : ℚ :=
  osum (df.map (fun r => r.inventoryValue))

/-- `(df['Total_Revenue'] * df['Product_Margin']).sum()` (line 75). -/
def total_sales_with_margin (df : List Row) : ℚ :=
  osum (df.map (fun r => omul r.totalRevenue r.productMargin))

/-- `gmroii` (line 76): the ratio guarded by `total_inventory_value > 0`. -/
def gmroii (df : List Row) : ℚ :=
  if 0 < total_inventory_value df then
    total_sales_with_margin df / total_inventory_value df
  else 0

/-- `df['Stock_Quantity'].sum()` (lines 80, 92). -/
def total_stock (df : List Row) : ℚ :=
  osum (df.map (fun r => r.stockQuantity))

/-- `df['Avg_Daily_Sales'].sum()` (line 81). -/
def total_avg_daily_sales (df : List Row) : ℚ :=
  osum (df.map (fun r => r.avgDailySales))

/-- `coverage_ratio` (line 82). -/
def coverage_ratio (df : List Row) : ℚ :=
  if 0 < total_avg_daily_sales df then total_stock df / total_avg_daily_sales df
  else 0

/-- The boolean mask `df['Days_to_Expire'] <= t`: a `NaN` (`none`)
`Days_to_Expire` compares `False` against any threshold. -/
def daysLE (r : Row) (t : Int) : Bool :=
  match r.daysToExpire with
  | some d => decide (d ≤ t)
  | none => false

/-- `df[df['Days_to_Expire'] <= 7]['Inventory_Value'].sum()` (line 85). -/
def near_expired_value (df : List Row) : ℚ :=
  osum ((df.filter (fun r => daysLE r 7)).map (fun r => r.inventoryValue))

/-- `df['Inventory_Turnover_Rate'].mean()` (line 88). -/
def avg_turnover_rate (df : List Row) : Option ℚ :=
  omean (df.map (fun r => r.turnoverRate))

/-- `df['Reorder_Quantity'].sum()` (line 93). -/
def total_reorder_qty (df : List Row) : ℚ :=
  osum (df.map (fun r => r.reorderQuantity))

/-- `fill_rate_proxy` (line 94). -/
def fill_rate_proxy (df : List Row) : ℚ :=
  if 0 < total_reorder_qty df then total_stock df / total_reorder_qty df
  else 0

/-- The dictionary literal returned by `calculate_kpis` (lines 96-102);
the `Avg Inventory Turnover Rate` entry can be `NaN` (`none`), the others
are always numbers. -/
def kpiList (df : List Row) : List (String × Option ℚ) :=
  [("GMROII", some (gmroii df)),
   ("Inventory Coverage Ratio (Days)", some (coverage_ratio df)),
   ("Near-Expired Value (7 Days)", some (near_expired_value df)),
   ("Avg Inventory Turnover Rate", avg_turnover_rate df),
   ("Fill Rate Proxy", some (fill_rate_proxy df))]

/-- `calculate_kpis(df)` (lines 67-102): `None` on an empty table. -/
def calculate_kpis (df : List Row) : Option (List (String × Option ℚ)) :=
  if df.isEmpty then none else some (kpiList df)

/-! ## Tabular projections for the presentation layer -/

/-- Code-point lexicographic order on character lists (Python string
comparison, used by pandas when sorting group keys). -/
def charLexLe : List Char → List Char → Bool
  | [], _ => true
  | _ :: _, [] => false
  | x :: xs, y :: ys => if x = y then charLexLe xs ys else decide (x < y)

/-- Lexicographic order on strings. -/
def strLeB (a b : String) : Bool :=
  charLexLe a.toList b.toList

/-- Distinct elements in order of first appearance (`seen` accumulator). -/
def dedupGo : List String → List String → List String
  | [], _ => []
  | a :: l, seen =>
    if seen.contains a then dedupGo l seen else a :: dedupGo l (a :: seen)

/-- Distinct elements in order of first appearance. -/
def firstDedup (l : List String) : List String :=
  dedupGo l []

/-- `df.groupby('Product_Name')['Total_Revenue'].sum()` (line 179):
one entry per distinct product name, keys sorted ascending (pandas
`groupby` default `sort=True`), each value the `NaN`-skipping sum of
`Total_Revenue` over that product's rows. -/
def revenue_by_product (df : List Row) : List (String × ℚ) :=
  (List.insertionSort (fun a b => strLeB a b = true)
      (firstDedup (df.map (fun r => r.productName)))).map
    (fun k => (k, osum ((df.filter (fun r => r.productName == k)).map
      (fun r => r.totalRevenue))))

/-- `.nlargest(10)` (line 179): stable sort descending by value
(`keep='first'`: ties keep their order of appearance in the grouped
series, i.e. ascending key order), then the first 10. -/
def top_products (df : List Row) : List (String × ℚ) :=
  (List.insertionSort (fun a b : String × ℚ => b.2 ≤ a.2)
      (revenue_by_product df)).take 10

/-- Modelled from the spec's words (§4.2 / §8 "ties broken by input
order"), for comparison with `top_products`: group keys kept in original
input-row order instead of pandas' sorted key order, then the same stable
descending-by-revenue sort and top-10 cut. -/
def spec_top_products (df : List Row) : List (String × ℚ) :=
  (List.insertionSort (fun a b : String × ℚ => b.2 ≤ a.2)
      ((firstDedup (df.map (fun r => r.productName))).map
        (fun k => (k, osum ((df.filter (fun r => r.productName == k)).map
          (fun r => r.totalRevenue)))))).take 10

/-- `sort_values('Days_to_Expire')` comparison: ascending, `NaN` last. -/
def dteLeB (a b : Row) : Bool :=
  match a.daysToExpire, b.daysToExpire with
  | some x, some y => decide (x ≤ y)
  | some _, none => true
  | none, some _ => false
  | none, none => true

/-- `df[df['Days_to_Expire'] <= 7].sort_values('Days_to_Expire')`
(line 230): the 7-day expiring-soon tabular projection. -/
def expiring_soon_data (df : List Row) : List Row :=
  List.insertionSort (fun a b => dteLeB a b = true)
    (df.filter (fun r => daysLE r 7))

/-! ## Concrete instances used to settle the claims -/

/-- A well-formed CSV line. `"2026-10-17"` is civil day 20743. -/
def baseRaw : RawRow :=
  { productName := "Apple", catagory := some "Fruit", supplierID := "S1",
    supplierName := "Acme", stockQuantity := some 100, reorderLevel := some 50,
    reorderQuantity := some 20, salesVolume := some 30, unitPrice := some "$2.00",
    percentage := some "10%", turnoverRate := some 2, status := "In Stock",
    dateReceived := some "2026-01-01", lastOrderDate := some "2026-02-01",
    expirationDate := some "2026-10-17" }

/-- The full interface header of the CSV (§6 of the spec, with the
category column spelled `Catagory` as in the dataset and the code). -/
def allCols : List String :=
  ["Product_Name", "Catagory", "Supplier_ID", "Supplier_Name", "Stock_Quantity",
   "Reorder_Level", "Reorder_Quantity", "Sales_Volume", "Unit_Price", "percentage",
   "Inventory_Turnover_Rate", "Status", "Date_Received", "Last_Order_Date",
   "Expiration_Date"]

/-- A complete one-row table. -/
def tFull : RawTable := { cols := allCols, rows := [baseRaw] }

/-- The same table with the optional `percentage` (margin) column absent. -/
def tNoPct : RawTable :=
  { cols := allCols.filter (fun c => c ≠ "percentage"), rows := [baseRaw] }

/-- The same table with the `Unit_Price` column absent. -/
def tMissingPrice : RawTable :=
  { cols := allCols.filter (fun c => c ≠ "Unit_Price"), rows := [baseRaw] }

/-- The same table with the category column absent. -/
def tMissingCatagory : RawTable :=
  { cols := allCols.filter (fun c => c ≠ "Catagory"), rows := [baseRaw] }

/-- A table whose category column is named `Category` — the spelling the
spec's interface section uses — instead of the code's `Catagory`. -/
def tCategorySpelled : RawTable :=
  { cols := allCols.map (fun c => if c = "Catagory" then "Category" else c),
    rows := [{ baseRaw with catagory := none }] }

/-- A table whose single row has a missing category cell. -/
def tCatCell : RawTable :=
  { cols := allCols, rows := [{ baseRaw with catagory := none }] }

/-- One normalized row (reference day 20738 = 2026-10-12). -/
def dfOne : List Row := [mkRow true 20738 baseRaw]

/-- A raw row with an absent `Inventory_Turnover_Rate` cell. -/
def rawNoTR : RawRow := { baseRaw with turnoverRate := none }

/-- A normalized table in which the turnover-rate field is absent for
every row. -/
def dfNoTR : List Row := [mkRow true 20738 rawNoTR]

/-- A raw row with a missing unit price, hence a `NaN` inventory value. -/
def rawNoPrice : RawRow := { baseRaw with unitPrice := none }

/-- A normalized table whose total inventory value is `0`. -/
def dfZeroVal : List Row := [mkRow true 20738 rawNoPrice]

/-- A raw row whose expiration date equals reference day 20738. -/
def rawToday : RawRow := { baseRaw with expirationDate := some "2026-10-12" }

/-- A raw row whose expiration date does not parse. -/
def rawBadDate : RawRow := { baseRaw with expirationDate := some "not-a-date" }

/-- A minimal normalized row for the top-products examples: every product
has total revenue `1`. -/
def prodRow (n : String) : Row :=
  { productName := n, catagory := "Unknown", supplierID := "S", supplierName := "Sup",
    stockQuantity := some 1, reorderLevel := some 1, reorderQuantity := some 1,
    salesVolume := some 1, unitPrice := some 1, productMargin := some 0,
    turnoverRate := some 1, status := "In Stock", inventoryValue := some 1,
    totalRevenue := some 1, daysToExpire := some 100, avgDailySales := some 1 }

/-- 15 distinct products, appearing in reverse-alphabetical input order,
all with the same total revenue. -/
def dfFifteen : List Row :=
  ["po", "pn", "pm", "pl", "pk", "pj", "pi", "ph", "pg", "pf",
   "pe", "pd", "pc", "pb", "pa"].map prodRow

/-! ## Helper lemmas -/

/-- `NaN`-skipping summand of a product of two optional values. -/
theorem getD_omul (a b : Option ℚ) :
    (omul a b).getD 0 = (match a, b with
      | some x, some y => x * y
      | _, _ => 0) := by
  cases a <;> cases b <;> rfl

/-- Inverting a successful `load_data` run: the rows are the per-row
normalization of the raw rows. -/
theorem load_data_ok_rows {t : RawTable} {refDay : Int} {rows : List Row}
    {ws : List String}
    (h : load_data (some t) refDay = .ok (rows, ws)) :
    rows = t.rows.map (mkRow (hasCol t "percentage") refDay) := by
  unfold load_data at h
  repeat' split at h
  all_goals simp_all

/-- Total inventory value as an explicit (`NaN`-dropping) sum of
stock × price, for any table whose derived column is coherent. -/
theorem total_inventory_value_pointwise (df : List Row)
    (hinv : ∀ r ∈ df, r.inventoryValue = omul r.stockQuantity r.unitPrice) :
    total_inventory_value df
      = (df.map (fun r => match r.stockQuantity, r.unitPrice with
          | some s, some p => s * p
          | _, _ => 0)).sum := by
  induction df with
  | nil => rfl
  | cons a l ih =>
    have ha := hinv a (by simp)
    have hl := ih (fun r hr => hinv r (by simp [hr]))
    simp only [total_inventory_value, osum, List.map_cons, List.sum_cons] at hl ⊢
    rw [hl, ha, getD_omul]

/-! ## Claims -/

/-- C1 counterexample: the claim says the pipeline never aborts for a
missing optional column, naming the unit-price and category columns among
the examples; in the code, reading a table without a `Unit_Price` column
(line 27) or without a `Catagory` column (line 54) raises a `KeyError`
instead of completing with a defaulted table. -/
theorem C1_counterexample :
    load_data (some tMissingPrice) 0 = .error "KeyError: 'Unit_Price'"
    ∧ load_data (some tMissingCatagory) 0 = .error "KeyError: 'Catagory'" := by
  constructor <;> with_unfolding_all rfl

/-- C1, amended: only the margin column `percentage` is optional.  When
every column the code reads unconditionally is present but `percentage`
is absent, `load_data` completes, fills `Product_Margin` with the number
`0.0` for every row, and surfaces a warning; and a missing source file
yields the empty table with an error message rather than an exception. -/
theorem C1_margin_fallback (t : RawTable) (refDay : Int)
    (h1 : hasCol t "Unit_Price" = true) (h2 : hasCol t "Stock_Quantity" = true)
    (h3 : hasCol t "Sales_Volume" = true) (h4 : hasCol t "Date_Received" = true)
    (h5 : hasCol t "Last_Order_Date" = true) (h6 : hasCol t "Expiration_Date" = true)
    (h7 : hasCol t "Catagory" = true) (h8 : hasCol t "percentage" = false) :
    load_data (some t) refDay = .ok (t.rows.map (mkRow false refDay), [pctWarning])
    ∧ (∀ r ∈ t.rows.map (mkRow false refDay), r.productMargin = some 0)
    ∧ load_data none refDay = .ok ([], [fileErrorMsg]) := by
  refine ⟨?_, ?_, rfl⟩
  · simp [load_data, h1, h2, h3, h4, h5, h6, h7, h8]
  · intro r hr
    rw [List.mem_map] at hr
    obtain ⟨a, -, rfl⟩ := hr
    rfl

/-- C1 witness: a concrete table with every required column but no
`percentage` column loads successfully with the margin warning. -/
theorem C1_witness :
    load_data (some tNoPct) 0 = .ok (tNoPct.rows.map (mkRow false 0), [pctWarning]) :=
  (C1_margin_fallback tNoPct 0 (by decide) (by decide) (by decide) (by decide)
    (by decide) (by decide) (by decide) (by decide)).1

/-- C8 counterexample: with the category column spelled `Category` — the
spelling the claim and the spec's interface table use — `load_data`
raises `KeyError: 'Catagory'` (line 54 reads the misspelled name), so no
normalized table with coalesced categories is produced at all. -/
theorem C8_counterexample :
    load_data (some tCategorySpelled) 0 = .error "KeyError: 'Catagory'" := by
  with_unfolding_all rfl

/-- C8, amended: for every input table that loads successfully (which
requires a column literally named `Catagory`), every normalized record's
category is the raw cell with missing values coalesced to the literal
`"Unknown"` — so after normalization no record has a null category. -/
theorem C8_catagory_fill (t : RawTable) (refDay : Int) (rows : List Row)
    (ws : List String)
    (h : load_data (some t) refDay = .ok (rows, ws)) :
    rows.map (fun r => r.catagory)
      = t.rows.map (fun r => r.catagory.getD "Unknown") := by
  rw [load_data_ok_rows h, List.map_map]
  rfl

/-- C8 witness: a concrete row with a missing category cell comes out of
the pipeline with category `"Unknown"`. -/
theorem C8_witness :
    (tCatCell.rows.map (mkRow true 20738)).map (fun r => r.catagory)
      = tCatCell.rows.map (fun r => r.catagory.getD "Unknown") :=
  C8_catagory_fill tCatCell 20738 _ [] (by with_unfolding_all rfl)

/-- C9: margin normalization strips the `%`, parses the rest as a decimal
and divides by 100, without clamping: `"1.96%"` gives exactly
`0.0196 = 49/2500` (so certainly within `1e-9`), and out-of-range strings
such as `"250%"` and `"-10%"` are preserved as `2.5` and `-0.1`. -/
theorem C9_margin_parse :
    parseMarginCell (some "1.96%") = some (49 / 2500)
    ∧ |(49 / 2500 : ℚ) - 196 / 10000| ≤ 1 / 1000000000
    ∧ parseMarginCell (some "250%") = some (5 / 2)
    ∧ parseMarginCell (some "-10%") = some (-1 / 10) :=
  ⟨by with_unfolding_all rfl, by norm_num,
   by with_unfolding_all rfl, by with_unfolding_all rfl⟩

/-- C10: the Near-Expired Value (7 Days) KPI (line 85) equals the
`NaN`-skipping sum of `Inventory_Value` over exactly the rows of the
expiring-soon tabular projection (line 230) — the projection is a
permutation (a sort) of the same `Days_to_Expire ≤ 7` row selection the
KPI sums over, so the KPI card and the displayed table agree. -/
theorem C10_near_expired_consistency (df : List Row) :
    near_expired_value df
      = osum ((expiring_soon_data df).map (fun r => r.inventoryValue))
    ∧ (expiring_soon_data df).Perm (df.filter (fun r => daysLE r 7)) := by
  have hperm : (expiring_soon_data df).Perm (df.filter (fun r => daysLE r 7)) :=
    List.perm_insertionSort _ _
  refine ⟨?_, hperm⟩
  unfold near_expired_value osum
  exact (List.Perm.sum_eq ((hperm.map _).map _)).symm

/-- C2 counterexample: on a concrete non-empty normalized table the KPI
set returned by `calculate_kpis` has exactly the five keys of the code's
dictionary literal (lines 96-102), and none of the KPIs the claim
requires — Total Inventory Value, Stock-Out Risk Count, Average Product
Margin, or any expiring-soon count — is among them.  (The code never even
reads `Reorder_Level`, so no stock-out figure exists anywhere.) -/
theorem C2_counterexample :
    ((calculate_kpis dfOne).getD []).map Prod.fst
      = ["GMROII", "Inventory Coverage Ratio (Days)", "Near-Expired Value (7 Days)",
         "Avg Inventory Turnover Rate", "Fill Rate Proxy"]
    ∧ "Total Inventory Value" ∉
        (["GMROII", "Inventory Coverage Ratio (Days)", "Near-Expired Value (7 Days)",
          "Avg Inventory Turnover Rate", "Fill Rate Proxy"] : List String)
    ∧ "Stock-Out Risk Count" ∉
        (["GMROII", "Inventory Coverage Ratio (Days)", "Near-Expired Value (7 Days)",
          "Avg Inventory Turnover Rate", "Fill Rate Proxy"] : List String)
    ∧ "Average Product Margin" ∉
        (["GMROII", "Inventory Coverage Ratio (Days)", "Near-Expired Value (7 Days)",
          "Avg Inventory Turnover Rate", "Fill Rate Proxy"] : List String) :=
  ⟨by with_unfolding_all rfl, by decide, by decide, by decide⟩

/-- C2, amended: on every non-empty normalized table `calculate_kpis`
returns the five-entry KPI set GMROII, Inventory Coverage Ratio (Days),
Near-Expired Value (7 Days) — a fixed 7-day threshold, not a configurable
count — Avg Inventory Turnover Rate and Fill Rate Proxy; the sum of
inventory value is computed only as GMROII's denominator and is not
itself in the set, and no stock-out count, average-margin KPI or
expiring-soon count is produced. -/
theorem C2_kpi_set (df : List Row) (h : df ≠ []) :
    calculate_kpis df = some (kpiList df)
    ∧ (kpiList df).map Prod.fst
      = ["GMROII", "Inventory Coverage Ratio (Days)", "Near-Expired Value (7 Days)",
         "Avg Inventory Turnover Rate", "Fill Rate Proxy"] := by
  constructor
  · have hne : df.isEmpty = false := by
      cases df with
      | nil => exact absurd rfl h
      | cons a l => rfl
    simp [calculate_kpis, hne]
  · rfl

/-- C2 witness: the five-entry KPI set on a concrete one-row table. -/
theorem C2_witness :
    calculate_kpis dfOne = some (kpiList dfOne)
    ∧ (kpiList dfOne).map Prod.fst
      = ["GMROII", "Inventory Coverage Ratio (Days)", "Near-Expired Value (7 Days)",
         "Avg Inventory Turnover Rate", "Fill Rate Proxy"] :=
  C2_kpi_set dfOne (by simp [dfOne])

/-- C3 counterexample: on a table whose turnover-rate field is absent in
every row, the Avg Inventory Turnover Rate entry of the KPI set is `NaN`
(pandas `mean()` of an all-`NaN` column), not the `0` the claim
requires. -/
theorem C3_counterexample :
    List.lookup "Avg Inventory Turnover Rate" (kpiList dfNoTR) = some none
    ∧ List.lookup "Avg Inventory Turnover Rate" (kpiList dfNoTR) ≠ some (some 0) := by
  have hl : List.lookup "Avg Inventory Turnover Rate" (kpiList dfNoTR) = some none := by
    with_unfolding_all rfl
  refine ⟨hl, ?_⟩
  rw [hl]
  simp

/-- C3, amended: the Avg Inventory Turnover Rate KPI is the mean of the
turnover-rate field over exactly the rows where the field is present
(`NaN`s are skipped); when the field is absent for every row the KPI is
`NaN` (`none`), not `0`. -/
theorem C3_turnover_mean (df : List Row) (h : df ≠ []) :
    calculate_kpis df = some (kpiList df)
    ∧ List.lookup "Avg Inventory Turnover Rate" (kpiList df)
        = some (avg_turnover_rate df)
    ∧ ((df.map (fun r => r.turnoverRate)).filterMap id ≠ [] →
        avg_turnover_rate df
          = some (((df.map (fun r => r.turnoverRate)).filterMap id).sum
              / (((df.map (fun r => r.turnoverRate)).filterMap id).length : ℚ)))
    ∧ ((∀ r ∈ df, r.turnoverRate = none) → avg_turnover_rate df = none) := by
  refine ⟨?_, rfl, ?_, ?_⟩
  · have hne : df.isEmpty = false := by
      cases df with
      | nil => exact absurd rfl h
      | cons a l => rfl
    simp [calculate_kpis, hne]
  · intro hxs
    have hne : ((df.map (fun r => r.turnoverRate)).filterMap id).isEmpty = false := by
      cases heq : (df.map (fun r => r.turnoverRate)).filterMap id with
      | nil => exact absurd heq hxs
      | cons a l => rfl
    simp only [avg_turnover_rate, omean, hne, Bool.false_eq_true, if_false]
  · intro hall
    have hnil : (df.map (fun r => r.turnoverRate)).filterMap id = [] := by
      rw [List.filterMap_eq_nil_iff]
      intro a ha
      rw [List.mem_map] at ha
      obtain ⟨r, hr, rfl⟩ := ha
      exact hall r hr
    simp only [avg_turnover_rate, omean, hnil, List.isEmpty_nil, if_true]

/-- C3 witness: on a concrete table with one present turnover rate, the
KPI is the mean of the present values. -/
theorem C3_witness :
    avg_turnover_rate dfOne
      = some (((dfOne.map (fun r => r.turnoverRate)).filterMap id).sum
          / (((dfOne.map (fun r => r.turnoverRate)).filterMap id).length : ℚ)) :=
  (C3_turnover_mean dfOne (by simp [dfOne])).2.2.1 (by with_unfolding_all decide)

/-- C5 counterexample: the claim requires the fuzzed currency string
`"$1,200.50"` to parse to its numeric value `1200.50`; the code only
strips `$` and whitespace (lines 27-28), `pd.to_numeric` rejects the
thousands separator, and the cell coerces to null. -/
theorem C5_counterexample :
    parseUnitPriceCell (some "$1,200.50") = none
    ∧ parseUnitPriceCell (some "$1,200.50") ≠ some (2401 / 2) := by
  have hp : parseUnitPriceCell (some "$1,200.50") = none := by
    with_unfolding_all rfl
  refine ⟨hp, ?_⟩
  rw [hp]
  simp

/-- C5, amended: for every table that loads, the total inventory value is
the sum over rows of stock quantity × normalized unit price, a null price
contributing nothing; `" 12.0 "` parses to `12.0` and `"abc"` to null as
claimed, but `"$1,200.50"` parses to null, not `1200.50`. -/
theorem C5_total_value (t : RawTable) (refDay : Int) (rows : List Row)
    (ws : List String)
    (h : load_data (some t) refDay = .ok (rows, ws)) :
    total_inventory_value rows
      = (rows.map (fun r => match r.stockQuantity, r.unitPrice with
          | some s, some p => s * p
          | _, _ => 0)).sum
    ∧ parseUnitPriceCell (some " 12.0 ") = some 12
    ∧ parseUnitPriceCell (some "abc") = none
    ∧ parseUnitPriceCell (some "$1,200.50") = none := by
  refine ⟨?_, by with_unfolding_all rfl, by with_unfolding_all rfl,
    by with_unfolding_all rfl⟩
  apply total_inventory_value_pointwise
  intro r hr
  rw [load_data_ok_rows h, List.mem_map] at hr
  obtain ⟨a, -, rfl⟩ := hr
  rfl

/-- C5 witness: the sum identity evaluated on a concrete loaded table. -/
theorem C5_witness :
    total_inventory_value (tFull.rows.map (mkRow true 20738))
      = ((tFull.rows.map (mkRow true 20738)).map
          (fun r => match r.stockQuantity, r.unitPrice with
            | some s, some p => s * p
            | _, _ => 0)).sum :=
  (C5_total_value tFull 20738 (tFull.rows.map (mkRow true 20738)) []
    (by with_unfolding_all rfl)).1

/-- C6: a row whose expiration date parses to exactly the reference day
gets `Days_to_Expire = 0`; a row whose expiration date does not parse
(`NaT`) gets a null `Days_to_Expire`, is excluded by the
`Days_to_Expire <= thr` mask for every threshold (in particular 7 and
30), never appears in the expiring-soon projection of any table, and
contributes nothing to the near-expired-value selection — it is never
treated as `0` days. -/
theorem C6_days_to_expire (hasPct : Bool) (refDay : Int) (raw : RawRow) :
    (expDayOfCell raw.expirationDate = some refDay →
      (mkRow hasPct refDay raw).daysToExpire = some 0)
    ∧ (expDayOfCell raw.expirationDate = none →
        (mkRow hasPct refDay raw).daysToExpire = none
        ∧ (∀ thr : Int, daysLE (mkRow hasPct refDay raw) thr = false)
        ∧ (∀ df : List Row, mkRow hasPct refDay raw ∉ expiring_soon_data df)
        ∧ (∀ df : List Row,
            near_expired_value (df ++ [mkRow hasPct refDay raw])
              = near_expired_value df)) := by
  constructor
  · intro h
    show (expDayOfCell raw.expirationDate).map (fun e => e - refDay) = some 0
    rw [h]
    simp
  · intro h
    have hdte : (mkRow hasPct refDay raw).daysToExpire = none := by
      show (expDayOfCell raw.expirationDate).map (fun e => e - refDay) = none
      rw [h]
      rfl
    have hmask : ∀ thr : Int, daysLE (mkRow hasPct refDay raw) thr = false := by
      intro thr
      unfold daysLE
      rw [hdte]
    refine ⟨hdte, hmask, ?_, ?_⟩
    · intro df hmem
      unfold expiring_soon_data at hmem
      rw [List.mem_insertionSort, List.mem_filter] at hmem
      rw [hmask 7] at hmem
      exact Bool.noConfusion hmem.2
    · intro df
      unfold near_expired_value
      rw [List.filter_append]
      have : List.filter (fun r => daysLE r 7) [mkRow hasPct refDay raw] = [] := by
        simp [List.filter, hmask 7]
      rw [this, List.append_nil]

/-- C6 witness: a concrete row expiring on the reference day (2026-10-12,
day 20738) gets 0 days to expire, and a concrete row with expiration
`"not-a-date"` gets a null days-to-expire. -/
theorem C6_witness :
    (mkRow true 20738 rawToday).daysToExpire = some 0
    ∧ (mkRow true 0 rawBadDate).daysToExpire = none :=
  ⟨(C6_days_to_expire true 20738 rawToday).1 (by with_unfolding_all rfl),
   ((C6_days_to_expire true 0 rawBadDate).2 (by with_unfolding_all rfl)).1⟩

/-- C7: GMROII's division-by-zero guard (line 76).  When the total
inventory value is `0` the KPI is exactly `0` (in this embedding a `ℚ`,
so never `NaN` or an exception); when the total is positive — which
covers every table whose per-row inventory values are non-negative, as
the data model requires — GMROII is `sum(revenue × margin)` divided by
the total inventory value. -/
theorem C7_gmroii_guard (df : List Row) (h : df ≠ []) :
    (total_inventory_value df = 0 → gmroii df = 0)
    ∧ (0 < total_inventory_value df →
        gmroii df = total_sales_with_margin df / total_inventory_value df)
    ∧ ((∀ r ∈ df, 0 ≤ r.inventoryValue.getD 0) →
        total_inventory_value df ≠ 0 →
        gmroii df = total_sales_with_margin df / total_inventory_value df) := by
  refine ⟨?_, ?_, ?_⟩
  · intro h0
    unfold gmroii
    rw [h0]
    simp
  · intro hpos
    unfold gmroii
    rw [if_pos hpos]
  · intro hnn hne
    have hnonneg : 0 ≤ total_inventory_value df := by
      unfold total_inventory_value osum
      apply List.sum_nonneg
      intro x hx
      rw [List.map_map, List.mem_map] at hx
      obtain ⟨r, hr, rfl⟩ := hx
      exact hnn r hr
    have hpos : 0 < total_inventory_value df := lt_of_le_of_ne hnonneg (Ne.symm hne)
    unfold gmroii
    rw [if_pos hpos]

/-- C7 witness: on a table with positive total inventory value GMROII is
the guarded ratio, and on a table whose only inventory value is `NaN`
(total `0`) GMROII is `0`. -/
theorem C7_witness :
    gmroii dfOne = total_sales_with_margin dfOne / total_inventory_value dfOne
    ∧ gmroii dfZeroVal = 0 :=
  ⟨(C7_gmroii_guard dfOne (by simp [dfOne])).2.1 (by with_unfolding_all decide),
   (C7_gmroii_guard dfZeroVal (by simp [dfZeroVal])).1 (by with_unfolding_all rfl)⟩

/-- C4 counterexample: 15 distinct products in reverse-alphabetical input
order, all with equal total revenue.  The claim's tie-break (original
input-row order) would keep `po … pf`; the code's
`groupby('Product_Name') … .nlargest(10)` sorts the group keys
alphabetically first, so it keeps `pa … pj` — input order is not the
tie-break. -/
theorem C4_counterexample :
    (top_products dfFifteen).map Prod.fst
      = ["pa", "pb", "pc", "pd", "pe", "pf", "pg", "ph", "pi", "pj"]
    ∧ (spec_top_products dfFifteen).map Prod.fst
      = ["po", "pn", "pm", "pl", "pk", "pj", "pi", "ph", "pg", "pf"]
    ∧ top_products dfFifteen ≠ spec_top_products dfFifteen := by
  refine ⟨by with_unfolding_all rfl, by with_unfolding_all rfl, ?_⟩
  intro heq
  have : (top_products dfFifteen).map Prod.fst
      = (spec_top_products dfFifteen).map Prod.fst := by rw [heq]
  rw [show (top_products dfFifteen).map Prod.fst
      = ["pa", "pb", "pc", "pd", "pe", "pf", "pg", "ph", "pi", "pj"] by
        with_unfolding_all rfl,
    show (spec_top_products dfFifteen).map Prod.fst
      = ["po", "pn", "pm", "pl", "pk", "pj", "pi", "ph", "pg", "pf"] by
        with_unfolding_all rfl] at this
  exact absurd this (by decide)

/-- C4, amended: for every table with 15 distinct products the
top-products output has exactly 10 rows sorted descending by total
revenue; ties are broken by the alphabetically sorted `groupby` key
order (`nlargest(10, keep='first')` on the grouped series), not by
original input-row order. -/
theorem C4_top10 (df : List Row)
    (h : (firstDedup (df.map (fun r => r.productName))).length = 15) :
    (top_products df).length = 10
    ∧ (top_products df).Pairwise (fun a b => b.2 ≤ a.2) := by
  constructor
  · rw [top_products, List.length_take, List.length_insertionSort,
      revenue_by_product, List.length_map, List.length_insertionSort, h]
    norm_num
  · haveI : IsTrans (String × ℚ) (fun a b => b.2 ≤ a.2) :=
      ⟨fun _ _ _ hab hbc => le_trans hbc hab⟩
    haveI : IsTotal (String × ℚ) (fun a b => b.2 ≤ a.2) :=
      ⟨fun a b => le_total b.2 a.2⟩
    have hs : List.Sorted (fun a b : String × ℚ => b.2 ≤ a.2)
        (List.insertionSort (fun a b : String × ℚ => b.2 ≤ a.2)
          (revenue_by_product df)) :=
      List.sorted_insertionSort (fun a b : String × ℚ => b.2 ≤ a.2)
        (revenue_by_product df)
    exact List.Pairwise.sublist (List.take_sublist 10 _) hs

/-- C4 witness: length and descending sortedness on the concrete 15
distinct-product table. -/
theorem C4_witness :
    (top_products dfFifteen).length = 10
    ∧ (top_products dfFifteen).Pairwise (fun a b => b.2 ≤ a.2) :=
  C4_top10 dfFifteen (by with_unfolding_all rfl)

end GroceryInv
